import Mathlib

/-!
Verification development for the agri-AI work-log registration pipeline.

Shallow embedding of:
  * `src/agri_ai/domain/master_data_matcher.py`  (MasterDataMatcher)
  * `src/agri_ai/domain/work_info_scorer.py`     (WorkInfoScorer)
  * `src/agri_ai/services/work_log_validator_v2.py` (WorkLogValidator)
  * `src/agri_ai/strategies/*.py`                (registration strategies and engine)

Python floats are modelled as rationals; Python strings as Lean `String`
(lists of characters); Python dicts that carry a fixed key set as Lean
structures; fallible I/O (database reads/writes, external LLM calls) as
explicit `Except String` values supplied as inputs.
-/

set_option maxHeartbeats 1000000
set_option maxRecDepth 4000
set_option linter.unusedVariables false

namespace AgriAI

/-! ### Python difflib.SequenceMatcher, as called by `_calculate_similarity`

`MasterDataMatcher._calculate_similarity` calls
`SequenceMatcher(None, text1, text2).ratio()` from Python's standard
library.  The embedding below follows CPython's `difflib.py` for
`isjunk=None`: the `b2j` table (including the autojunk rule that drops
elements occurring in more than 1% of a `b` of length at least 200),
`find_longest_match` (dynamic-programming loop followed by the four
extension loops; the junk set is empty for `isjunk=None`), the recursive
decomposition of `get_matching_blocks`, and
`ratio() = 2*M / (len(a)+len(b))`. -/

/-- ascending list of the positions at which `c` occurs in `b`
(one entry of difflib's `b2j` table). -/
def charPositions (b : List Char) (c : Char) : List Nat :=
  (List.range b.length).filter (fun j => b.get? j == some c)

/-- difflib `b2j` lookup with the autojunk rule: for `len(b) >= 200`,
elements occurring more than `len(b)//100 + 1` times are dropped. -/
def b2jGet (b : List Char) (c : Char) : List Nat :=
  let ps := charPositions b c
  if 200 ≤ b.length ∧ b.length / 100 + 1 < ps.length then [] else ps

/-- inner loop of `find_longest_match` over the `b`-positions of `a[i]`:
builds `newj2len` and updates the best block.  `j2len` is the map from
the previous row (missing keys read as 0; the Python read `j2len.get(j-1, 0)`
at `j = 0` reads key `-1`, which is never present, hence the `j = 0` case). -/
def flmInner (blo bhi i : Nat) (j2len : Nat → Nat) :
    List Nat → (Nat → Nat) → Nat × Nat × Nat → (Nat → Nat) × (Nat × Nat × Nat)
  | [], newj2len, best => (newj2len, best)
  | j :: js, newj2len, best =>
    if j < blo then flmInner blo bhi i j2len js newj2len best
    else if bhi ≤ j then (newj2len, best)
    else
      let k := (if j = 0 then 0 else j2len (j - 1)) + 1
      let newj2len' := fun x => if x = j then k else newj2len x
      let best' := if best.2.2 < k then (i + 1 - k, j + 1 - k, k) else best
      flmInner blo bhi i j2len js newj2len' best'

/-- outer loop of `find_longest_match` over `i in range(alo, ahi)`. -/
def flmLoop (a : List Char) (b2j : Char → List Nat) (blo bhi ahi : Nat) :
    Nat → (Nat → Nat) → Nat × Nat × Nat → Nat × Nat × Nat :=
  fun i j2len best =>
    if h : i < ahi then
      let r := flmInner blo bhi i j2len (b2j (a.getD i ' ')) (fun _ => 0) best
      flmLoop a b2j blo bhi ahi (i + 1) r.1 r.2
    else best
termination_by i => ahi - i
decreasing_by simp_wf; omega

/-- one left-extension loop of `find_longest_match`
(`while besti > alo and bestj > blo and ok(b[bestj-1]) and a[besti-1] == b[bestj-1]`). -/
def extendLeft (a b : List Char) (ok : Char → Bool) (alo blo : Nat) :
    Nat × Nat × Nat → Nat × Nat × Nat :=
  fun best =>
    if h : alo < best.1 ∧ blo < best.2.1 ∧ ok (b.getD (best.2.1 - 1) ' ') = true ∧
        a.getD (best.1 - 1) ' ' = b.getD (best.2.1 - 1) ' ' then
      extendLeft a b ok alo blo (best.1 - 1, best.2.1 - 1, best.2.2 + 1)
    else best
termination_by best => best.1
decreasing_by simp_wf; omega

/-- one right-extension loop of `find_longest_match`
(`while besti+bestsize < ahi and ... : bestsize += 1`). -/
def extendRight (a b : List Char) (ok : Char → Bool) (ahi bhi : Nat) :
    Nat × Nat × Nat → Nat × Nat × Nat :=
  fun best =>
    if h : best.1 + best.2.2 < ahi ∧ best.2.1 + best.2.2 < bhi ∧
        ok (b.getD (best.2.1 + best.2.2) ' ') = true ∧
        a.getD (best.1 + best.2.2) ' ' = b.getD (best.2.1 + best.2.2) ' ' then
      extendRight a b ok ahi bhi (best.1, best.2.1, best.2.2 + 1)
    else best
termination_by best => ahi - (best.1 + best.2.2)
decreasing_by simp_wf; omega

/-- difflib `find_longest_match(alo, ahi, blo, bhi)`; `isbjunk` is the junk
predicate (empty for `isjunk=None`, the matcher's instantiation). -/
def findLongestMatch (isbjunk : Char → Bool) (a b : List Char)
    (alo ahi blo bhi : Nat) : Nat × Nat × Nat :=
  let best := flmLoop a (b2jGet b) blo bhi ahi alo (fun _ => 0) (alo, blo, 0)
  let best := extendLeft a b (fun c => !isbjunk c) alo blo best
  let best := extendRight a b (fun c => !isbjunk c) ahi bhi best
  let best := extendLeft a b isbjunk alo blo best
  extendRight a b isbjunk ahi bhi best

/-- total size `M` of the matching blocks of `get_matching_blocks`, as the
recursive decomposition around the longest match (the queue in difflib
visits exactly these subranges).  `fuel` bounds the recursion depth;
`(ahi-alo)+(bhi-blo)` strictly decreases, so any fuel above the total
length fully unfolds. -/
def matchingSum (isbjunk : Char → Bool) (a b : List Char) :
    Nat → Nat → Nat → Nat → Nat → Nat
  | 0, _, _, _, _ => 0
  | fuel + 1, alo, ahi, blo, bhi =>
    let r := findLongestMatch isbjunk a b alo ahi blo bhi
    if r.2.2 = 0 then 0
    else
      matchingSum isbjunk a b fuel alo r.1 blo r.2.1 + r.2.2 +
      matchingSum isbjunk a b fuel (r.1 + r.2.2) ahi (r.2.1 + r.2.2) bhi

/-- `SequenceMatcher(None, a, b).ratio() = 2*M / (len(a)+len(b))`
(difflib returns 1.0 when both strings are empty). -/
def seqRatio (a b : List Char) : ℚ :=
  if a.length + b.length = 0 then 1
  else (2 * (matchingSum (fun _ => false) a b (a.length + b.length + 1) 0 a.length 0 b.length) : ℚ) /
    (a.length + b.length)

/-! ### MasterDataMatcher: normalization and similarity -/

/-- whitespace class of Python's `\s` for the scripts at hand
(ASCII whitespace plus no-break and ideographic spaces). -/
def pyIsSpace (c : Char) : Bool :=
  c = ' ' || c = '\t' || c = '\n' || c = '\r' || c = '\x0b' || c = '\x0c' ||
  c = ' ' || c = '　'

/-- the fixed punctuation class removed by `_normalize_text`
(`[。、.,!?！？\-\(\)（）\[\]「」]`). -/
def isNormPunct (c : Char) : Bool :=
  ['。', '、', '.', ',', '!', '?', '！', '？', '-', '(', ')', '（', '）',
   '[', ']', '「', '」'].contains c

/-- Python `str.lower()` restricted to ASCII and full-width Latin letters
(the scripts occurring in the reference data). -/
def pyLowerChar (c : Char) : Char :=
  if 'A' ≤ c ∧ c ≤ 'Z' then Char.ofNat (c.toNat + 32)
  else if 'Ａ' ≤ c ∧ c ≤ 'Ｚ' then Char.ofNat (c.toNat + 32)
  else c

/-- `_hiragana_to_katakana`: characters in あ..ん are shifted by the fixed
offset `ord('ア') - ord('あ') = 96`; all others pass through. -/
def hira_to_katakana (c : Char) : Char :=
  if 'あ' ≤ c ∧ c ≤ 'ん' then Char.ofNat (c.toNat + 96) else c

/-- `MasterDataMatcher._normalize_text`: lower-case, remove whitespace,
remove the fixed punctuation, unify hiragana into katakana (all four
config switches are on). -/
def normalize_text (s : String) : String :=
  String.mk ((((s.toList.map pyLowerChar).filter
    (fun c => !pyIsSpace c)).filter (fun c => !isNormPunct c)).map hira_to_katakana)

/-- contiguous-substring test: Python `small in big` on strings. -/
def subInside (small big : List Char) : Bool :=
  (List.range (big.length + 1)).any (fun i => (big.drop i).take small.length == small)

def toLowerStr (s : String) : String := String.mk (s.toList.map pyLowerChar)

/-- `MasterDataMatcher._calculate_similarity`: 0.0 when either string is
empty, 1.0 on equality, otherwise the SequenceMatcher ratio plus — when one
string contains the other — a bonus `0.2 * len(shorter)/len(longer)`,
capped at 1.0. -/
def calculate_similarity (text1 text2 : String) : ℚ :=
  if text1 = "" ∨ text2 = "" then 0
  else if text1 = text2 then 1
  else
    let sim := seqRatio text1.toList text2.toList
    if subInside text1.toList text2.toList ∨ subInside text2.toList text1.toList then
      min 1 (sim + ((min text1.toList.length text2.toList.length : ℚ) /
        (max text1.toList.length text2.toList.length)) * (2/10))
    else sim

/-! ### MasterDataMatcher: staged matching against the reference datasets -/

/-- reference field record (keys read by `match_field_data`). -/
structure FieldRec where
  field_id : Option String
  field_name : String
  field_code : String
deriving DecidableEq, Repr

/-- reference crop record (keys read by `match_crop_data`). -/
structure CropRec where
  crop_id : Option String
  crop_name : String
  scientific_name : String
  aliases : List String
deriving DecidableEq, Repr

/-- reference material record (keys read by `_match_single_material`). -/
structure MaterialRec where
  material_id : Option String
  material_name : String
  brand_name : String
  active_ingredients : List String
deriving DecidableEq, Repr

/-- match entry appended by `match_field_data`. -/
structure FieldMatch where
  field_id : Option String
  field_name : String
  field_code : String
  confidence : ℚ
  match_method : String
deriving DecidableEq, Repr

/-- match entry appended by `match_crop_data`. -/
structure CropMatch where
  crop_id : Option String
  crop_name : String
  confidence : ℚ
  match_method : String
deriving DecidableEq, Repr

/-- match entry appended by `_match_single_material`. -/
structure MaterialMatch where
  material_id : Option String
  material_name : String
  confidence : ℚ
  match_method : String
deriving DecidableEq, Repr

/-- result dict of `_select_best_match` / `_create_no_match_result`;
`match_quality := none` models the empty dict `{}` used by
`_create_error_result`, where the key is absent. -/
structure MatchSelection (α : Type) where
  matched : Option α
  candidates : List α
  ambiguity_detected : Bool
  match_quality : Option String
deriving DecidableEq, Repr

/-- one insertion step of a stable descending sort by confidence: the
inserted element came earlier in the original list than everything in the
sorted tail, so it goes in front of the first element whose confidence does
not exceed its own (ties keep the earlier element first). -/
def insertByConf {α : Type} (conf : α → ℚ) (x : α) : List α → List α
  | [] => [x]
  | y :: ys => if conf y ≤ conf x then x :: y :: ys else y :: insertByConf conf x ys

/-- stable descending sort by confidence: the result of Python's stable
`sorted(matches, key=confidence, reverse=True)` (equal-confidence entries
keep their original relative order). -/
def sortByConfDesc {α : Type} (conf : α → ℚ) : List α → List α
  | [] => []
  | x :: xs => insertByConf conf x (sortByConfDesc conf xs)

/-- `_assess_match_quality` with the fixed thresholds 1.0/0.8/0.6/0.4. -/
def assess_match_quality (confidence : ℚ) : String :=
  if 1 ≤ confidence then "exact"
  else if 8/10 ≤ confidence then "high"
  else if 6/10 ≤ confidence then "medium"
  else if 4/10 ≤ confidence then "low"
  else "no_match"

/-- `_create_no_match_result`: null best match, no candidates, no ambiguity. -/
def create_no_match_result {α : Type} : MatchSelection α :=
  { matched := none, candidates := [], ambiguity_detected := false,
    match_quality := some "no_match" }

/-- `_select_best_match`: sort candidates by confidence (stable, descending),
flag ambiguity when the top two confidences differ by less than 0.1, keep the
top three candidates. -/
def select_best_match {α : Type} (conf : α → ℚ) (ms : List α) : MatchSelection α :=
  if ms.isEmpty then create_no_match_result
  else
    match sortByConfDesc conf ms with
    | [] => create_no_match_result
    | best :: rest =>
      { matched := some best
        candidates := (best :: rest).take 3
        ambiguity_detected :=
          match rest with
          | [] => false
          | second :: _ => decide (conf best - conf second < 1/10)
        match_quality := some (assess_match_quality (conf best)) }

/-- `MasterDataMatcher.match_field_data`: name similarity plus a 0.9
code-containment score; candidates below the 0.4 threshold are dropped. -/
def match_field_data (extracted_name : String) (master_fields : List FieldRec) :
    MatchSelection FieldMatch :=
  if extracted_name = "" ∨ master_fields.isEmpty then create_no_match_result
  else
    let normalized_input := normalize_text extracted_name
    let found := master_fields.foldr (fun field acc =>
      let name_score := calculate_similarity normalized_input (normalize_text field.field_name)
      let code_score : ℚ :=
        if field.field_code ≠ "" ∧
            (subInside (toLowerStr field.field_code).toList (toLowerStr normalized_input).toList ∨
             subInside (toLowerStr normalized_input).toList (toLowerStr field.field_code).toList)
        then 9/10 else 0
      let best_score := max name_score code_score
      if 4/10 ≤ best_score then
        { field_id := field.field_id
          field_name := field.field_name
          field_code := field.field_code
          confidence := best_score
          match_method :=
            if code_score < name_score then "name_similarity" else "code_match" } :: acc
      else acc) []
    select_best_match (fun m => m.confidence) found

/-- `MasterDataMatcher.match_crop_data`: best of main-name, scientific-name
and alias similarity; candidates below 0.4 are dropped. -/
def match_crop_data (extracted_name : String) (master_crops : List CropRec) :
    MatchSelection CropMatch :=
  if extracted_name = "" ∨ master_crops.isEmpty then create_no_match_result
  else
    let normalized_input := normalize_text extracted_name
    let found := master_crops.foldr (fun crop acc =>
      let main_score := calculate_similarity normalized_input (normalize_text crop.crop_name)
      let scientific_score : ℚ :=
        if crop.scientific_name ≠ "" then
          calculate_similarity normalized_input (normalize_text crop.scientific_name)
        else 0
      let alias_score := crop.aliases.foldl
        (fun a al => max a (calculate_similarity normalized_input (normalize_text al))) 0
      let best_score := max (max main_score scientific_score) alias_score
      if 4/10 ≤ best_score then
        { crop_id := crop.crop_id
          crop_name := crop.crop_name
          confidence := best_score
          match_method :=
            if scientific_score = best_score then "scientific_name"
            else if alias_score = best_score then "alias"
            else "main_name" } :: acc
      else acc) []
    select_best_match (fun m => m.confidence) found

/-- `MasterDataMatcher._match_single_material`: best of product-name, brand,
active-ingredient similarity and the 0.7/0.6 substring scores for inputs of
length at least 3. -/
def match_single_material (extracted_name : String) (master_materials : List MaterialRec) :
    MatchSelection MaterialMatch :=
  if extracted_name = "" then create_no_match_result
  else
    let normalized_input := normalize_text extracted_name
    let found := master_materials.foldr (fun material acc =>
      let name_score := calculate_similarity normalized_input
        (normalize_text material.material_name)
      let brand_score : ℚ :=
        if material.brand_name ≠ "" then
          calculate_similarity normalized_input (normalize_text material.brand_name)
        else 0
      let ingredient_score := material.active_ingredients.foldl
        (fun a ing => max a (calculate_similarity normalized_input (normalize_text ing))) 0
      let pscore : ℚ :=
        if 3 ≤ normalized_input.toList.length then
          if subInside normalized_input.toList (normalize_text material.material_name).toList
          then 7/10
          else if subInside (normalize_text material.material_name).toList
            normalized_input.toList then 6/10
          else 0
        else 0
      let best_score := max (max (max name_score brand_score) ingredient_score) pscore
      if 4/10 ≤ best_score then
        { material_id := material.material_id
          material_name := material.material_name
          confidence := best_score
          match_method :=
            if brand_score = best_score then "brand_name"
            else if ingredient_score = best_score then "active_ingredient"
            else if pscore = best_score then "partial_match"
            else "material_name" } :: acc
      else acc) []
    select_best_match (fun m => m.confidence) found

/-- `MasterDataMatcher.match_material_data`: one result per extracted name,
keeping only the results that found a match. -/
def match_material_data (extracted_names : List String)
    (master_materials : List MaterialRec) : List (MatchSelection MaterialMatch) :=
  if extracted_names.isEmpty ∨ master_materials.isEmpty then []
  else
    (extracted_names.map (fun n => match_single_material n master_materials)).filter
      (fun r => r.matched.isSome)

/-! ### WorkInfoScorer: confidence scoring over the raw extraction dict

`calculate_confidence_score` receives a `Dict[str, Any]`: values can carry
any JSON-ish type, and the per-field evaluators raise (`TypeError`,
`AttributeError`) on ill-typed values; the scorer's outer `except` catches
any such error and returns 0.0.  Values are modelled by `PyVal` and raised
exceptions by the `.error` case of `Except String ℚ`. -/

/-- a dynamically-typed Python value as it occurs in the extraction dict. -/
inductive PyVal where
  | vnone
  | vstr (s : String)
  | vnum (q : ℚ)
  | vlist (xs : List PyVal)

mutual

/-- structural equality of Python values. -/
def pyValBeq : PyVal → PyVal → Bool
  | .vnone, .vnone => true
  | .vstr a, .vstr b => a == b
  | .vnum a, .vnum b => a == b
  | .vlist a, .vlist b => pyValListBeq a b
  | _, _ => false

/-- structural equality of lists of Python values. -/
def pyValListBeq : List PyVal → List PyVal → Bool
  | [], [] => true
  | x :: xs, y :: ys => pyValBeq x y && pyValListBeq xs ys
  | _, _ => false

end

instance : BEq PyVal := ⟨pyValBeq⟩

/-- Python truthiness (`None`, `""`, `0`, `[]` are falsy). -/
def pyTruthy : PyVal → Bool
  | .vnone => false
  | .vstr s => s != ""
  | .vnum q => q != 0
  | .vlist xs => !xs.isEmpty

/-- Python `str.strip()` (whitespace from both ends). -/
def pyStrip (s : String) : String :=
  String.mk (((s.toList.dropWhile pyIsSpace).reverse.dropWhile pyIsSpace).reverse)

/-- Python regex `\d` matches Unicode decimal digits, not just ASCII;
modelled for the scripts occurring in this application's inputs: ASCII
digits and full-width digits ０..９ (U+FF10..U+FF19). -/
def pyIsDecDigit (c : Char) : Bool :=
  c.isDigit || decide ('０' ≤ c ∧ c ≤ '９')

/-- decimal value of a `\d` digit (`int()` uses the Unicode decimal value,
so the full-width ５ counts as 5). -/
def pyDigitVal (c : Char) : Nat :=
  if c.isDigit then c.toNat - '0'.toNat else c.toNat - '０'.toNat

/-- search for regex `\d+日前`: the leftmost position where a maximal digit
run (Unicode decimal digits) is immediately followed by `日前`; returns the
run's value (the backtracking of `\d+` cannot shorten the run because `日`
is not a digit). -/
def findDaysAgo : List Char → Option Nat
  | [] => none
  | c :: rest =>
    if pyIsDecDigit c then
      if (rest.dropWhile pyIsDecDigit).take 2 == ['日', '前'] then
        some ((c :: rest.takeWhile pyIsDecDigit).foldl
          (fun n d => 10 * n + pyDigitVal d) 0)
      else findDaysAgo rest
    else findDaysAgo rest

/-- search for `\d{4}-\d{2}-\d{2}` (Unicode decimal digits). -/
def hasIsoDate (s : List Char) : Bool :=
  (List.range s.length).any fun i =>
    match s.drop i with
    | a :: b :: c :: d :: e :: f :: g :: h :: k :: l :: _ =>
      pyIsDecDigit a && pyIsDecDigit b && pyIsDecDigit c && pyIsDecDigit d &&
      e == '-' && pyIsDecDigit f && pyIsDecDigit g && h == '-' &&
      pyIsDecDigit k && pyIsDecDigit l
    | _ => false

/-- search for `\d{1,2}/\d{1,2}` (a match exists iff some digit is followed
by `/` and a digit). -/
def hasSlashDate (s : List Char) : Bool :=
  (List.range s.length).any fun i =>
    match s.drop i with
    | a :: b :: c :: _ => pyIsDecDigit a && b == '/' && pyIsDecDigit c
    | _ => false

/-- search for `\d{1,2}月\d{1,2}日` (Unicode decimal digits). -/
def hasKanjiDate (s : List Char) : Bool :=
  (List.range s.length).any fun i =>
    match s.drop i with
    | a :: b :: c :: rest =>
      pyIsDecDigit a && b == '月' && pyIsDecDigit c &&
        (rest.take 1 == ['日'] ||
          (match rest with
           | d :: e :: _ => pyIsDecDigit d && e == '日'
           | _ => false))
    | _ => false

/-- `WorkInfoScorer._evaluate_work_date`. -/
def evaluate_work_date (work_date : PyVal) : Except String ℚ :=
  if !pyTruthy work_date then .ok 0
  else match work_date with
    | .vstr s =>
      let cs := s.toList
      if subInside "今日".toList cs || subInside "昨日".toList cs ||
          subInside "一昨日".toList cs || (findDaysAgo cs).isSome ||
          subInside "先週".toList cs || subInside "今週".toList cs then .ok (9/10)
      else if hasIsoDate cs || hasSlashDate cs || hasKanjiDate cs then .ok 1
      else if subInside "日".toList cs || subInside "月".toList cs ||
          subInside "週".toList cs then .ok (6/10)
      else .ok (3/10)
    | _ => .error "TypeError"

/-- `WorkInfoScorer._evaluate_field_name`. -/
def evaluate_field_name (field_name : PyVal) : Except String ℚ :=
  if !pyTruthy field_name then .ok 0
  else match field_name with
    | .vstr s0 =>
      let cs := (pyStrip s0).toList
      let pat1 := (List.range cs.length).any fun i =>
        match cs.drop i with
        | a :: b :: _ => a.isAlphanum && (b == '畑' || b == '圃' || b == '場')
        | _ => false
      let pat2 := (List.range cs.length).any fun i =>
        match cs.drop i with
        | a :: b :: _ =>
          decide ('あ' ≤ a ∧ a ≤ 'ん') && (b == 'ハ' || b == 'ウ' || b == 'ス')
        | _ => false
      let pat3 := (List.range cs.length).any fun i =>
        match cs.drop i with
        | a :: b :: _ => a.isDigit && (b == '号' || b == '棟')
        | _ => false
      if pat1 || pat2 || pat3 then .ok 1
      else if subInside "畑".toList cs || subInside "田".toList cs ||
          subInside "圃場".toList cs || subInside "ハウス".toList cs ||
          subInside "温室".toList cs then .ok (8/10)
      else if 2 ≤ cs.length then .ok (5/10)
      else .ok (2/10)
    | _ => .error "AttributeError"

/-- the fixed list of common crop names in `_evaluate_crop_name`. -/
def common_crops : List String :=
  ["トマト", "キュウリ", "ナス", "ピーマン", "イチゴ",
   "レタス", "キャベツ", "白菜", "大根", "人参",
   "じゃがいも", "玉ねぎ", "ねぎ", "ほうれん草"]

/-- Python `str.isdigit()`: nonempty and all digits (full-width digits
count as digits in Python). -/
def pyIsDigitStr (s : String) : Bool :=
  !s.toList.isEmpty && s.toList.all pyIsDecDigit

/-- `WorkInfoScorer._evaluate_crop_name`. -/
def evaluate_crop_name (crop_name : PyVal) : Except String ℚ :=
  if !pyTruthy crop_name then .ok 0
  else match crop_name with
    | .vstr s0 =>
      let s := pyStrip s0
      if common_crops.contains s then .ok 1
      else if common_crops.any (fun crop =>
          subInside crop.toList s.toList || subInside s.toList crop.toList) then .ok (8/10)
      else if 2 ≤ s.toList.length ∧ pyIsDigitStr s = false then .ok (6/10)
      else .ok (3/10)
    | _ => .error "AttributeError"

/-- the fixed category list of `_evaluate_work_category`. -/
def standard_categories : List String := ["防除", "施肥", "収穫", "栽培", "管理"]

/-- the category-keyword table of `_evaluate_work_category`. -/
def category_keywords : List (String × List String) :=
  [("防除", ["農薬", "殺菌", "殺虫", "散布", "防虫"]),
   ("施肥", ["肥料", "追肥", "元肥", "堆肥"]),
   ("収穫", ["収穫", "採取", "出荷"]),
   ("栽培", ["播種", "定植", "移植", "植付"]),
   ("管理", ["草刈", "除草", "清掃", "点検", "整枝"])]

/-- `WorkInfoScorer._evaluate_work_category`.  Note the Python dynamics:
`x in list` is equality membership for any type of `x` (no raise);
`keyword in x` requires `x` to be iterable — for a string it is a substring
test, for a list it is membership, and for a number it raises `TypeError`;
`len` applies to strings and lists. -/
def evaluate_work_category (work_category : PyVal) : Except String ℚ :=
  if !pyTruthy work_category then .ok 0
  else if (match work_category with
      | .vstr s => standard_categories.contains s
      | _ => false) then .ok 1
  else match work_category with
    | .vstr s =>
      if category_keywords.any (fun kw => kw.2.any (fun k => subInside k.toList s.toList))
      then .ok (8/10)
      else if 2 ≤ s.toList.length then .ok (5/10)
      else .ok (2/10)
    | .vlist xs =>
      if category_keywords.any (fun kw => kw.2.any (fun k => xs.contains (.vstr k)))
      then .ok (8/10)
      else if 2 ≤ xs.length then .ok (5/10)
      else .ok (2/10)
    | _ => .error "TypeError"

/-- Python `for x in v`: lists iterate their items, strings iterate their
characters as one-character strings, numbers are not iterable. -/
def pyIter : PyVal → Except String (List PyVal)
  | .vlist xs => .ok xs
  | .vstr s => .ok (s.toList.map (fun c => .vstr (String.mk [c])))
  | .vnum _ => .error "TypeError"
  | .vnone => .error "TypeError"

/-- search for regex `[A-Za-z0-9]+.*[0-9]+` (`.` does not cross a newline):
some alphanumeric character is followed, within the same line, by a
strictly later digit. -/
def hasAlnumThenDigit (cs : List Char) : Bool :=
  go false cs
where
  go (seen : Bool) : List Char → Bool
    | [] => false
    | c :: rest =>
      if c == '\n' then go false rest
      else if seen && c.isDigit then true
      else go (seen || c.isAlphanum) rest

/-- `WorkInfoScorer._evaluate_materials`: average of the per-item scores
(non-strings are skipped but still counted in the denominator). -/
def evaluate_materials (materials : PyVal) : Except String ℚ :=
  if !pyTruthy materials then .ok 0
  else do
    let items ← pyIter materials
    let total : ℚ := items.foldl (fun t it =>
      match it with
      | .vstr s0 =>
        let s := pyStrip s0
        if hasAlnumThenDigit s.toList then t + 1
        else if subInside "剤".toList s.toList || subInside "液".toList s.toList ||
            subInside "粉".toList s.toList || subInside "粒".toList s.toList then t + 8/10
        else if 3 ≤ s.toList.length then t + 6/10
        else t + 3/10
      | _ => t) 0
    pure (min 1 (total / items.length))

/-- `WorkInfoScorer._evaluate_quantity`: `quantity > 0` raises on
non-numeric non-None values; `len(unit)` raises on numbers. -/
def evaluate_quantity (quantity unit : PyVal) : Except String ℚ := do
  let s1 : ℚ ←
    match quantity with
    | .vnone => pure 0
    | .vnum q => pure (if 0 < q then 6/10 else 0)
    | _ => Except.error "TypeError"
  let s2 : ℚ ←
    if !pyTruthy unit then pure 0
    else match unit with
      | .vstr u =>
        pure (if ["L", "ml", "kg", "g", "袋", "本", "回"].contains u then 4/10
          else if 1 ≤ u.toList.length then 2/10 else 0)
      | .vlist xs => pure (if 1 ≤ xs.length then 2/10 else 0)
      | .vnum _ => Except.error "TypeError"
      | .vnone => pure 0
  pure (min 1 (s1 + s2))

/-- the raw extraction dict consumed by the scorer (missing keys read as
`None`; a missing `materials` key defaults to `[]`, which behaves
identically to `None` in every read). -/
structure ScorerInput where
  work_date : PyVal
  field_name : PyVal
  crop_name : PyVal
  work_category : PyVal
  materials : PyVal
  quantity : PyVal
  unit : PyVal
  work_count : PyVal
  notes : PyVal

/-- contribution of one of the five main fields in `_evaluate_specificity`. -/
def specificity_count1 (v : PyVal) : ℚ :=
  if !pyTruthy v then 0
  else match v with
    | .vlist xs => if 0 < xs.length then 1 else 0
    | .vstr s => if 0 < (pyStrip s).toList.length then 1 else 0
    | _ => 0

/-- `WorkInfoScorer._evaluate_specificity` (total function, never raises). -/
def evaluate_specificity (d : ScorerInput) : ℚ :=
  min 1 ((specificity_count1 d.work_date + specificity_count1 d.field_name +
    specificity_count1 d.crop_name + specificity_count1 d.work_category +
    specificity_count1 d.materials +
    (if pyTruthy d.notes then 1/2 else 0) +
    (if pyTruthy d.work_count then 1/2 else 0)) / 5)

/-- the `try` body of `calculate_confidence_score`: the seven weighted
evaluators in order, then the clamp `max(0.0, min(1.0, score))`. -/
def score_body (d : ScorerInput) : Except String ℚ := do
  let s1 ← evaluate_work_date d.work_date
  let s2 ← evaluate_field_name d.field_name
  let s3 ← evaluate_crop_name d.crop_name
  let s4 ← evaluate_work_category d.work_category
  let s5 ← evaluate_materials d.materials
  let s6 ← evaluate_quantity d.quantity d.unit
  let s7 := evaluate_specificity d
  pure (max 0 (min 1 (s1 * (15/100) + s2 * (20/100) + s3 * (15/100) +
    s4 * (15/100) + s5 * (20/100) + s6 * (10/100) + s7 * (5/100))))

/-- `WorkInfoScorer.calculate_confidence_score`: any error raised by an
evaluator is caught and 0.0 is returned. -/
def calculate_confidence_score (d : ScorerInput) : ℚ :=
  match score_body d with
  | .ok q => q
  | .error _ => 0

/-! ### Data model: ExtractedWorkInfo and the validation verdict -/

/-- the closed `Literal` enum of `ExtractedWorkInfo.work_category`. -/
inductive WorkCategory where
  | bojo | sehi | saibai | shukaku | kanri | sonota
deriving DecidableEq, Repr

/-- the Japanese label of each category (the Literal strings). -/
def work_category_str : WorkCategory → String
  | .bojo => "防除"
  | .sehi => "施肥"
  | .saibai => "栽培"
  | .shukaku => "収穫"
  | .kanri => "管理"
  | .sonota => "その他"

/-- the pydantic `ExtractedWorkInfo` model. -/
structure ExtractedWorkInfo where
  work_date : Option String
  field_name : Option String
  crop_name : Option String
  work_category : Option WorkCategory
  materials : List String
  quantity : Option ℚ
  unit : Option String
  work_count : Option Int
  notes : Option String
  confidence_score : Option ℚ
deriving DecidableEq, Repr

/-- Python truthiness of an optional string (`None` and `""` are falsy). -/
def pyStrTruthy : Option String → Bool
  | none => false
  | some s => s != ""

/-- Python falsiness of the optional quantity (`None` and `0.0` are falsy). -/
def pyQuantityFalsy : Option ℚ → Bool
  | none => true
  | some q => q == 0

/-- the per-entity-kind results assembled by `_execute_matching_logic`. -/
structure MatchingResults where
  field_validation : MatchSelection FieldMatch
  crop_validation : MatchSelection CropMatch
  material_validation : List (MatchSelection MaterialMatch)
deriving DecidableEq, Repr

/-- the pydantic `WorkLogValidationResult` model (with the extra
`quality_score` / `validation_method` entries the v2 validator passes). -/
structure WorkLogValidationResult where
  is_valid : Bool
  field_validation : MatchSelection FieldMatch
  crop_validation : MatchSelection CropMatch
  material_validation : List (MatchSelection MaterialMatch)
  missing_info : List String
  suggestions : List String
  quality_score : ℚ
  validation_method : String
deriving DecidableEq, Repr

/-! ### WorkLogValidator (v2) -/

/-- the three reference datasets returned by `MasterDataGateway`. -/
structure MasterData where
  fields : List FieldRec
  crops : List CropRec
  materials : List MaterialRec
deriving Repr

/-- outcomes of the three gateway reads (`get_all_fields` /
`get_all_crops` / `get_all_materials`); `.error` models a storage failure
raised by the gateway. -/
structure GatewayOutcome where
  fields : Except String (List FieldRec)
  crops : Except String (List CropRec)
  materials : Except String (List MaterialRec)

/-- `WorkLogValidator._fetch_master_data_parallel`: the three reads are
awaited in order fields, crops, materials; the first raised storage error
propagates. -/
def fetch_master_data_parallel (gw : GatewayOutcome) : Except String MasterData := do
  let f ← gw.fields
  let c ← gw.crops
  let m ← gw.materials
  pure ⟨f, c, m⟩

/-- `WorkLogValidator._execute_matching_logic`. -/
def execute_matching_logic (info : ExtractedWorkInfo) (md : MasterData) :
    MatchingResults :=
  { field_validation :=
      if pyStrTruthy info.field_name then
        match_field_data (info.field_name.getD "") md.fields
      else create_no_match_result
    crop_validation :=
      if pyStrTruthy info.crop_name then
        match_crop_data (info.crop_name.getD "") md.crops
      else create_no_match_result
    material_validation :=
      if info.materials.isEmpty then []
      else match_material_data info.materials md.materials }

/-- `WorkLogValidator._assess_overall_validity`: a resolved field, or a
resolved crop together with a nonempty material-validation list. -/
def assess_overall_validity (r : MatchingResults) : Bool :=
  r.field_validation.matched.isSome ||
    (r.crop_validation.matched.isSome && !r.material_validation.isEmpty)

/-- `WorkLogValidator._identify_missing_information`. -/
def identify_missing_information (info : ExtractedWorkInfo) (r : MatchingResults) :
    List String :=
  (if pyStrTruthy info.work_date = false then ["work_date"] else []) ++
  (if r.field_validation.matched.isNone then ["field_name"] else []) ++
  (if info.work_category.isNone then ["work_category"] else []) ++
  (if (info.work_category = some .bojo ∨ info.work_category = some .sehi) ∧
      r.material_validation.isEmpty then ["materials"] else []) ++
  (if info.work_category = some .shukaku ∧ pyQuantityFalsy info.quantity then
    ["quantity"] else [])

/-- `WorkLogValidator._generate_suggestions`. -/
def generate_suggestions (r : MatchingResults) : List String :=
  (if r.field_validation.ambiguity_detected ∧ 1 < r.field_validation.candidates.length then
    ["圃場名の候補: " ++ String.intercalate ", "
      ((r.field_validation.candidates.take 2).map (fun c => c.field_name))]
  else []) ++
  (if r.crop_validation.ambiguity_detected ∧ 1 < r.crop_validation.candidates.length then
    ["作物名の候補: " ++ String.intercalate ", "
      ((r.crop_validation.candidates.take 2).map (fun c => c.crop_name))]
  else []) ++
  (r.material_validation.foldr (fun mv acc =>
    if (mv.matched.map (fun m => m.match_method)).getD "" = "partial_match" then
      ("資材名の確認: " ++ (mv.matched.map (fun m => m.material_name)).getD "") :: acc
    else acc) [])

/-- `WorkLogValidator._calculate_quality_score`. -/
def calculate_quality_score (r : MatchingResults) : ℚ :=
  let scores :=
    (match r.field_validation.matched with
     | some m => [m.confidence]
     | none => []) ++
    (match r.crop_validation.matched with
     | some m => [m.confidence]
     | none => []) ++
    (if r.material_validation.isEmpty then []
     else
       let material_scores := r.material_validation.foldr (fun mv acc =>
         match mv.matched with
         | some m => m.confidence :: acc
         | none => acc) []
       if material_scores.isEmpty then []
       else [material_scores.sum / material_scores.length])
  if scores.isEmpty then 0 else scores.sum / scores.length

/-- `WorkLogValidator._build_validation_result`. -/
def build_validation_result (info : ExtractedWorkInfo) (r : MatchingResults) :
    WorkLogValidationResult :=
  { is_valid := assess_overall_validity r
    field_validation := r.field_validation
    crop_validation := r.crop_validation
    material_validation := r.material_validation
    missing_info := identify_missing_information info r
    suggestions := generate_suggestions r
    quality_score := calculate_quality_score r
    validation_method := "matcher_based_v2" }

/-- the empty dict `{}` placed in the sub-result slots of
`_create_error_result` (every key absent). -/
def emptySelection {α : Type} : MatchSelection α :=
  { matched := none, candidates := [], ambiguity_detected := false,
    match_quality := none }

/-- `WorkLogValidator._create_error_result`. -/
def create_error_result (error_message : String) : WorkLogValidationResult :=
  { is_valid := false
    field_validation := emptySelection
    crop_validation := emptySelection
    material_validation := []
    missing_info := ["validation_error"]
    suggestions := ["検証エラー: " ++ error_message]
    quality_score := 0
    validation_method := "error" }

/-- `WorkLogValidator.validate_work_log`: fetch the three reference
datasets, run the matching logic, build the verdict; any raised error is
caught and converted into the error verdict (the matching and assembly
steps are total, so the only raising step is the gateway fetch). -/
def validate_work_log (gw : GatewayOutcome) (info : ExtractedWorkInfo) :
    WorkLogValidationResult :=
  match fetch_master_data_parallel gw with
  | .ok md => build_validation_result info (execute_matching_logic info md)
  | .error e => create_error_result e

/-! ### Registration strategies and the strategy engine -/

/-- Python `extracted_info.confidence_score or 0.0` (`None` and `0.0` are
falsy, and both yield `0.0`). -/
def confidence_or_zero (info : ExtractedWorkInfo) : ℚ :=
  info.confidence_score.getD 0

/-- `AutoRegistrationStrategy.can_handle`: valid verdict, confidence at
least 0.8, essential info (a work category and a field name or matched
field), and at most one missing item. -/
def auto_can_handle (info : ExtractedWorkInfo) (vr : WorkLogValidationResult) : Bool :=
  if !vr.is_valid || confidence_or_zero info < 8/10 then false
  else
    (info.work_category.isSome &&
      (pyStrTruthy info.field_name || vr.field_validation.matched.isSome)) &&
    decide (vr.missing_info.length ≤ 1)

/-- `IntelligentStrategy.can_handle`: the grey zone
`0.4 ≤ confidence < 0.8`, one or two missing items, valid verdict. -/
def intelligent_can_handle (info : ExtractedWorkInfo)
    (vr : WorkLogValidationResult) : Bool :=
  decide (4/10 ≤ confidence_or_zero info) && decide (confidence_or_zero info < 8/10) &&
    decide (1 ≤ vr.missing_info.length) && decide (vr.missing_info.length ≤ 2) &&
    vr.is_valid

/-- `EnhancedConfirmationStrategy.can_handle`: `0.4 ≤ confidence < 0.7`,
at most three missing items, and a nonempty suggestion list. -/
def enhanced_confirmation_can_handle (info : ExtractedWorkInfo)
    (vr : WorkLogValidationResult) : Bool :=
  decide (4/10 ≤ confidence_or_zero info) && decide (confidence_or_zero info < 7/10) &&
    decide (vr.missing_info.length ≤ 3) && !vr.suggestions.isEmpty

/-- `ConfirmationStrategy.can_handle`: returns True in every branch
(catch-all fallback strategy). -/
def confirmation_can_handle (info : ExtractedWorkInfo)
    (vr : WorkLogValidationResult) : Bool :=
  if confidence_or_zero info < 6/10 ∨ 2 ≤ vr.missing_info.length then true
  else if !vr.is_valid then true
  else true

/-- `AutoRegistrationStrategy._parse_work_date`; dates are integer day
numbers, with `today` (`datetime.now()`) supplied by the environment.  Any
string not matching a recognized relative form falls through to `today`. -/
def parse_work_date (today : ℤ) : Option String → ℤ
  | none => today
  | some s =>
    if s = "" then today
    else if s = "今日" then today
    else if s = "昨日" then today - 1
    else if s = "一昨日" then today - 2
    else if subInside "日前".toList s.toList then
      match findDaysAgo s.toList with
      | some n => today - n
      | none => today
    else today

/-- response of the context-reasoning service (`analyze_context`). -/
structure ContextAnalysis where
  recommended_action : String
  urgency_level : String
  reasoning : String
  confidence : ℚ
  missing_info_inference : List (String × String)
deriving DecidableEq, Repr

/-- output of `generate_confirmation_message`. -/
structure ConfirmationData where
  confirmation_message : String
  options : List String
deriving DecidableEq, Repr

/-- environment of one engine run: the generated log id and clock, and the
outcomes of the external calls (storage write, history fetch, context
analysis, confirmation-message generation); `.error` models a raised
exception in that call. -/
structure EngineEffects where
  today : ℤ
  log_id : String
  insert_work_log : Except String Unit
  user_history : Except String (List String)
  context : Except String ContextAnalysis
  confirmation : Except String ConfirmationData

/-- the work-log record persisted by `_save_work_log` (the fields relevant
to the claims; the nested `extracted_data` echo is not modelled). -/
structure LogRecord where
  log_id : String
  user_id : String
  work_date : ℤ
  original_message : String
  category : String
  tags : List String
  status : String
deriving DecidableEq, Repr

/-- the result dict returned by a strategy execution (absent keys are
`none`). -/
structure RegResult where
  success : Bool
  requires_confirmation : Bool
  registration_type : Option String
  strategy_used : String
  log_id : Option String
  message : String
  error : Option String
  confidence_score : Option ℚ
deriving DecidableEq, Repr

/-- `AutoRegistrationStrategy._save_work_log`: build the record (work date
via `_parse_work_date`, category defaulted to その他) and insert it; a
storage failure raises. -/
def save_work_log (eff : EngineEffects) (info : ExtractedWorkInfo)
    (vr : WorkLogValidationResult) (message user_id : String) :
    Except String LogRecord :=
  let record : LogRecord :=
    { log_id := eff.log_id
      user_id := user_id
      work_date := parse_work_date eff.today info.work_date
      original_message := message
      category := (info.work_category.map work_category_str).getD "その他"
      tags := [(info.work_category.map work_category_str).getD "その他"]
      status := "confirmed" }
  match eff.insert_work_log with
  | .ok _ => .ok record
  | .error e => .error e

/-- `AutoRegistrationStrategy.execute`: persist and report success; a
persistence failure is logged and re-raised (`except ...: raise`). -/
def auto_execute (eff : EngineEffects) (info : ExtractedWorkInfo)
    (vr : WorkLogValidationResult) (message user_id : String) :
    Except String RegResult :=
  match save_work_log eff info vr message user_id with
  | .ok rec => .ok
      { success := true
        requires_confirmation := false
        registration_type := some "auto"
        strategy_used := "自動登録戦略"
        log_id := some rec.log_id
        message := "作業記録を自動登録しました（記録ID: " ++ rec.log_id ++ "）"
        error := none
        confidence_score := info.confidence_score }
  | .error e => .error e

/-- `ConfirmationStrategy.execute`: build the confirmation payload; any
raised error is caught and converted into a failure dict, so this strategy
never raises. -/
def confirmation_execute (eff : EngineEffects) (info : ExtractedWorkInfo)
    (vr : WorkLogValidationResult) (message user_id : String) : RegResult :=
  match eff.confirmation with
  | .ok cd =>
      { success := true
        requires_confirmation := true
        registration_type := some "confirmation_required"
        strategy_used := "確認フロー戦略"
        log_id := none
        message := cd.confirmation_message
        error := none
        confidence_score := info.confidence_score }
  | .error e =>
      { success := false
        requires_confirmation := false
        registration_type := none
        strategy_used := "確認フロー戦略"
        log_id := none
        message := "確認処理中にエラーが発生しました。"
        error := some e
        confidence_score := none }

/-- `EnhancedConfirmationStrategy.execute`: history, context analysis and
confirmation generation inside a `try`; on any raised error it falls back
to the basic confirmation flow. -/
def enhanced_confirmation_execute (eff : EngineEffects) (info : ExtractedWorkInfo)
    (vr : WorkLogValidationResult) (message user_id : String) : RegResult :=
  match eff.user_history, eff.context, eff.confirmation with
  | .ok _, .ok _, .ok cd =>
      { success := true
        requires_confirmation := true
        registration_type := some "enhanced_confirmation_required"
        strategy_used := "拡張確認フロー戦略"
        log_id := none
        message := cd.confirmation_message
        error := none
        confidence_score := info.confidence_score }
  | _, _, _ => confirmation_execute eff info vr message user_id

/-- `_apply_llm_inferences`: inferred values overwrite only currently-falsy
fields; modelled for the optional string fields the inference dict carries. -/
def apply_llm_inferences (info : ExtractedWorkInfo)
    (inferences : List (String × String)) : ExtractedWorkInfo :=
  inferences.foldl (fun acc kv =>
    if kv.1 = "work_date" ∧ pyStrTruthy acc.work_date = false then
      { acc with work_date := some kv.2 }
    else if kv.1 = "field_name" ∧ pyStrTruthy acc.field_name = false then
      { acc with field_name := some kv.2 }
    else if kv.1 = "crop_name" ∧ pyStrTruthy acc.crop_name = false then
      { acc with crop_name := some kv.2 }
    else if kv.1 = "unit" ∧ pyStrTruthy acc.unit = false then
      { acc with unit := some kv.2 }
    else if kv.1 = "notes" ∧ pyStrTruthy acc.notes = false then
      { acc with notes := some kv.2 }
    else acc) info

/-- `IntelligentStrategy.execute`: history fetch, context analysis and the
action dispatch all run inside one `try`; any raised error — including a
persistence failure inside the nested automatic registration — falls back
to the basic confirmation flow.  The urgent/inferred actions delegate to
the automatic strategy's execution. -/
def intelligent_execute (eff : EngineEffects) (info : ExtractedWorkInfo)
    (vr : WorkLogValidationResult) (message user_id : String) : RegResult :=
  match eff.user_history with
  | .error _ => confirmation_execute eff info vr message user_id
  | .ok _ =>
    match eff.context with
    | .error _ => confirmation_execute eff info vr message user_id
    | .ok ca =>
      if ca.recommended_action = "auto_register_urgent" then
        match auto_execute eff info vr message user_id with
        | .ok r => { r with strategy_used := "知的判断戦略 → 緊急自動登録" }
        | .error _ => confirmation_execute eff info vr message user_id
      else if ca.recommended_action = "auto_register_inferred" then
        let info2 :=
          if ca.missing_info_inference.isEmpty then info
          else apply_llm_inferences info ca.missing_info_inference
        match auto_execute eff info2 vr message user_id with
        | .ok r => { r with strategy_used := "知的判断戦略 → 推測自動登録" }
        | .error _ => confirmation_execute eff info vr message user_id
      else if ca.recommended_action = "confirm_with_suggestions" then
        enhanced_confirmation_execute eff info vr message user_id
      else confirmation_execute eff info vr message user_id

/-- the four strategies in the factory's priority order. -/
inductive StrategyName where
  | auto | intelligent | enhancedConfirmation | confirmationFlow
deriving DecidableEq, Repr

/-- dispatch of `can_handle` per strategy. -/
def strategy_can_handle :
    StrategyName → ExtractedWorkInfo → WorkLogValidationResult → Bool
  | .auto => auto_can_handle
  | .intelligent => intelligent_can_handle
  | .enhancedConfirmation => enhanced_confirmation_can_handle
  | .confirmationFlow => confirmation_can_handle

/-- dispatch of `execute` per strategy.  Only the automatic strategy can
raise (all three others catch internally). -/
def strategy_execute (eff : EngineEffects) (s : StrategyName)
    (info : ExtractedWorkInfo) (vr : WorkLogValidationResult)
    (message user_id : String) : Except String RegResult :=
  match s with
  | .auto => auto_execute eff info vr message user_id
  | .intelligent => .ok (intelligent_execute eff info vr message user_id)
  | .enhancedConfirmation => .ok (enhanced_confirmation_execute eff info vr message user_id)
  | .confirmationFlow => .ok (confirmation_execute eff info vr message user_id)

/-- the priority list built by
`RegistrationStrategyFactory._create_ordered_strategies`. -/
def default_strategies : List StrategyName :=
  [.auto, .intelligent, .enhancedConfirmation, .confirmationFlow]

/-- `RegistrationStrategyContext.execute_best_strategy`: the first strategy
whose `can_handle` passes executes; if none passes, the last strategy in
the list executes (`self.strategies[-1]`; an empty list would raise
`IndexError`).  There is no `try`/`except` here: an error raised by the
executed strategy propagates to the caller. -/
def execute_best_strategy (eff : EngineEffects) (strategies : List StrategyName)
    (info : ExtractedWorkInfo) (vr : WorkLogValidationResult)
    (message user_id : String) : Except String RegResult :=
  match strategies.find? (fun s => strategy_can_handle s info vr) with
  | some s => strategy_execute eff s info vr message user_id
  | none =>
    match strategies.getLast? with
    | some s => strategy_execute eff s info vr message user_id
    | none => .error "IndexError"

/-- the relative work-date forms recognized by `_parse_work_date`. -/
def recognized_relative (s : String) : Prop :=
  s = "今日" ∨ s = "昨日" ∨ s = "一昨日" ∨
    (subInside "日前".toList s.toList = true ∧ (findDaysAgo s.toList).isSome = true)

instance (s : String) : Decidable (recognized_relative s) := by
  unfold recognized_relative; infer_instance

/-! #### Validity of the best block, and the bound `M ≤ min (len a) (len b)` -/

/-- validity of a best-match triple for the range `[alo,ahi) × [blo,bhi)`. -/
def BestValid (alo ahi blo bhi : Nat) (t : Nat × Nat × Nat) : Prop :=
  alo ≤ t.1 ∧ blo ≤ t.2.1 ∧ t.1 + t.2.2 ≤ ahi ∧ t.2.1 + t.2.2 ≤ bhi

/-- invariant of the `j2len` row: entries are bounded by the number of rows
processed so far, and a nonzero entry at `x` describes a match ending at
column `x` inside `[blo, bhi)`. -/
def JlenInv (blo bhi m : Nat) (f : Nat → Nat) : Prop :=
  ∀ x, f x ≤ m ∧ (f x ≠ 0 → blo ≤ x ∧ x < bhi ∧ f x ≤ x + 1 - blo)

theorem jlenInv_zero (blo bhi m : Nat) : JlenInv blo bhi m (fun _ => 0) := by
  intro x; exact ⟨Nat.zero_le _, fun h => absurd rfl h⟩

theorem flmInner_spec (blo bhi i alo ahi m : Nat) (j2len : Nat → Nat)
    (hj : JlenInv blo bhi m j2len) (hm : alo + m ≤ i) (hi : i < ahi) :
    ∀ (js : List Nat) (newj2len : Nat → Nat) (best : Nat × Nat × Nat),
      JlenInv blo bhi (m + 1) newj2len → BestValid alo ahi blo bhi best →
      JlenInv blo bhi (m + 1) (flmInner blo bhi i j2len js newj2len best).1 ∧
      BestValid alo ahi blo bhi (flmInner blo bhi i j2len js newj2len best).2 := by
  intro js
  induction js with
  | nil => intro newj2len best hn hb; simpa [flmInner] using ⟨hn, hb⟩
  | cons j js ih =>
    intro newj2len best hn hb
    by_cases h1 : j < blo
    · simpa [flmInner, h1] using ih newj2len best hn hb
    by_cases h2 : bhi ≤ j
    · simpa [flmInner, h1, h2] using ⟨hn, hb⟩
    have hjm := (hj (j - 1)).1
    have hjcol := (hj (j - 1)).2
    have hk1 : (if j = 0 then 0 else j2len (j - 1)) + 1 ≤ m + 1 := by
      split <;> omega
    have hk2 : (if j = 0 then 0 else j2len (j - 1)) + 1 ≤ j + 1 - blo := by
      split
      · omega
      · rcases Nat.eq_zero_or_pos (j2len (j - 1)) with h0 | h0
        · omega
        · have := hjcol (by omega); omega
    have hnew : JlenInv blo bhi (m + 1)
        (fun x => if x = j then (if j = 0 then 0 else j2len (j - 1)) + 1
                  else newj2len x) := by
      intro x
      show (if x = j then (if j = 0 then 0 else j2len (j - 1)) + 1 else newj2len x) ≤ m + 1 ∧
        ((if x = j then (if j = 0 then 0 else j2len (j - 1)) + 1 else newj2len x) ≠ 0 →
          blo ≤ x ∧ x < bhi ∧
          (if x = j then (if j = 0 then 0 else j2len (j - 1)) + 1 else newj2len x) ≤ x + 1 - blo)
      by_cases hx : x = j
      · rw [if_pos hx]
        exact ⟨hk1, fun _ => ⟨by omega, by omega, by omega⟩⟩
      · rw [if_neg hx]
        exact hn x
    have hgen : ∀ k : Nat, 1 ≤ k → k ≤ m + 1 → k ≤ j + 1 - blo →
        BestValid alo ahi blo bhi
          (if best.2.2 < k then (i + 1 - k, j + 1 - k, k) else best) := by
      intro k hk0 hka hkb
      split
      · simp only [BestValid]
        omega
      · exact hb
    have hbest' := hgen ((if j = 0 then 0 else j2len (j - 1)) + 1)
      (by omega) hk1 hk2
    have hres := ih _ _ hnew hbest'
    simpa [flmInner, h1, h2] using hres

theorem flmLoop_spec (a : List Char) (b2j : Char → List Nat) (blo bhi ahi alo : Nat)
    (n : Nat) :
    ∀ (i : Nat) (j2len : Nat → Nat) (best : Nat × Nat × Nat) (m : Nat),
      ahi - i ≤ n → JlenInv blo bhi m j2len → alo + m ≤ i →
      BestValid alo ahi blo bhi best →
      BestValid alo ahi blo bhi (flmLoop a b2j blo bhi ahi i j2len best) := by
  induction n with
  | zero =>
    intro i j2len best m hn hj hm hb
    have h : ¬ i < ahi := by omega
    rw [flmLoop, dif_neg h]; exact hb
  | succ n ih =>
    intro i j2len best m hn hj hm hb
    by_cases h : i < ahi
    · rw [flmLoop, dif_pos h]
      have hstep := flmInner_spec blo bhi i alo ahi m j2len hj hm h
        (b2j (a.getD i ' ')) (fun _ => 0) best (jlenInv_zero blo bhi (m + 1)) hb
      exact ih (i + 1) _ _ (m + 1) (by omega) hstep.1 (by omega) hstep.2
    · rw [flmLoop, dif_neg h]; exact hb

theorem extendLeft_valid (a b : List Char) (ok : Char → Bool) (alo blo ahi bhi : Nat) :
    ∀ best, BestValid alo ahi blo bhi best →
      BestValid alo ahi blo bhi (extendLeft a b ok alo blo best) := by
  intro best
  induction best using extendLeft.induct a b ok alo blo with
  | case1 best h ih =>
    intro hb
    rw [extendLeft, dif_pos h]
    apply ih
    simp only [BestValid] at hb ⊢
    omega
  | case2 best h =>
    intro hb
    rw [extendLeft, dif_neg h]
    exact hb

theorem extendRight_valid (a b : List Char) (ok : Char → Bool) (alo blo ahi bhi : Nat) :
    ∀ best, BestValid alo ahi blo bhi best →
      BestValid alo ahi blo bhi (extendRight a b ok ahi bhi best) := by
  intro best
  induction best using extendRight.induct a b ok ahi bhi with
  | case1 best h ih =>
    intro hb
    rw [extendRight, dif_pos h]
    exact ih (by simp only [BestValid] at hb ⊢; omega)
  | case2 best h =>
    intro hb
    rw [extendRight, dif_neg h]
    exact hb

theorem findLongestMatch_valid (isbjunk : Char → Bool) (a b : List Char)
    (alo ahi blo bhi : Nat) (ha : alo ≤ ahi) (hb : blo ≤ bhi) :
    BestValid alo ahi blo bhi (findLongestMatch isbjunk a b alo ahi blo bhi) := by
  unfold findLongestMatch
  apply extendRight_valid
  apply extendLeft_valid
  apply extendRight_valid
  apply extendLeft_valid
  exact flmLoop_spec a (b2jGet b) blo bhi ahi alo (ahi - alo) alo (fun _ => 0)
    (alo, blo, 0) 0 (le_refl _) (jlenInv_zero blo bhi 0) (by omega)
    ⟨le_refl _, le_refl _, by simpa using ha, by simpa using hb⟩

theorem matchingSum_le (isbjunk : Char → Bool) (a b : List Char) :
    ∀ (fuel alo ahi blo bhi : Nat), alo ≤ ahi → blo ≤ bhi →
      matchingSum isbjunk a b fuel alo ahi blo bhi ≤ min (ahi - alo) (bhi - blo) := by
  intro fuel
  induction fuel with
  | zero => intro alo ahi blo bhi _ _; simp [matchingSum]
  | succ fuel ih =>
    intro alo ahi blo bhi ha hbl
    have hv := findLongestMatch_valid isbjunk a b alo ahi blo bhi ha hbl
    rw [matchingSum]
    split
    · omega
    · obtain ⟨h1, h2, h3, h4⟩ := hv
      have hA := ih alo (findLongestMatch isbjunk a b alo ahi blo bhi).1 blo
        (findLongestMatch isbjunk a b alo ahi blo bhi).2.1 (by omega) (by omega)
      have hB := ih ((findLongestMatch isbjunk a b alo ahi blo bhi).1 +
          (findLongestMatch isbjunk a b alo ahi blo bhi).2.2) ahi
        ((findLongestMatch isbjunk a b alo ahi blo bhi).2.1 +
          (findLongestMatch isbjunk a b alo ahi blo bhi).2.2) bhi h3 h4
      omega

theorem seqRatio_nonneg (a b : List Char) : 0 ≤ seqRatio a b := by
  unfold seqRatio
  split
  · norm_num
  · positivity

theorem seqRatio_le_one (a b : List Char) : seqRatio a b ≤ 1 := by
  unfold seqRatio
  split
  · norm_num
  · next h =>
    have hM := matchingSum_le (fun _ => false) a b (a.length + b.length + 1)
      0 a.length 0 b.length (Nat.zero_le _) (Nat.zero_le _)
    have h2M : 2 * matchingSum (fun _ => false) a b (a.length + b.length + 1)
        0 a.length 0 b.length ≤ a.length + b.length := by omega
    rw [div_le_one (by exact_mod_cast Nat.pos_of_ne_zero h)]
    exact_mod_cast h2M

/-! ### Claim C8: similarity bounds, reflexivity, empty arguments -/

/-- C8 counterexample: the claim asserts `similarity(s, s) = 1.0` for every
string `s`, but the empty-string guard runs first, so
`similarity("", "") = 0.0`, not 1.0. -/
theorem similarity_empty_reflexivity_fails :
    calculate_similarity "" "" = 0 ∧ (0 : ℚ) ≠ 1 := by
  constructor
  · rfl
  · norm_num

/-- C8 (amended): `_calculate_similarity` always lies in [0,1] (the
containment bonus is capped); equal NONEMPTY strings score exactly 1.0; and
whenever either argument is empty the result is 0.0 — so the reflexivity
law holds for all nonempty strings but fails at the empty string. -/
theorem similarity_bounds_refl_empty (a b : String) :
    (0 ≤ calculate_similarity a b ∧ calculate_similarity a b ≤ 1) ∧
    (a ≠ "" → calculate_similarity a a = 1) ∧
    ((a = "" ∨ b = "") → calculate_similarity a b = 0) := by
  refine ⟨⟨?_, ?_⟩, ?_, ?_⟩
  · unfold calculate_similarity
    split
    · norm_num
    split
    · norm_num
    split
    · have h1 := seqRatio_nonneg a.toList b.toList
      have h2 : (0:ℚ) ≤ ((min a.toList.length b.toList.length : ℚ) /
          (max a.toList.length b.toList.length)) * (2/10) := by positivity
      exact le_min (by norm_num) (by linarith)
    · exact seqRatio_nonneg a.toList b.toList
  · unfold calculate_similarity
    split
    · norm_num
    split
    · norm_num
    split
    · exact min_le_left _ _
    · exact seqRatio_le_one a.toList b.toList
  · intro h
    unfold calculate_similarity
    rw [if_neg (by simp [h]), if_pos rfl]
  · intro h
    unfold calculate_similarity
    rw [if_pos h]

/-- C8 witness: the amended reflexivity and empty-argument laws at concrete
inputs. -/
theorem similarity_bounds_refl_empty_witness :
    calculate_similarity "abc" "abc" = 1 ∧ calculate_similarity "abc" "" = 0 :=
  ⟨(similarity_bounds_refl_empty "abc" "abc").2.1 (by decide),
   (similarity_bounds_refl_empty "abc" "").2.2 (Or.inr rfl)⟩

/-! ### Claim C9: empty candidate list / empty input text give no-match -/

/-- C9: an Entity Matcher call with an empty candidate list, or with empty
input text, returns a no-match result: null best match, empty candidate
list, ambiguity flag false (for fields, crops and single materials; the
material-list matcher returns the empty result list). -/
theorem matcher_empty_inputs_no_match (s : String) (fl : List FieldRec)
    (cl : List CropRec) (ml : List MaterialRec) (names : List String) :
    ((s = "" ∨ fl = []) →
      (match_field_data s fl).matched = none ∧
      (match_field_data s fl).candidates = [] ∧
      (match_field_data s fl).ambiguity_detected = false) ∧
    ((s = "" ∨ cl = []) →
      (match_crop_data s cl).matched = none ∧
      (match_crop_data s cl).candidates = [] ∧
      (match_crop_data s cl).ambiguity_detected = false) ∧
    ((s = "" ∨ ml = []) →
      (match_single_material s ml).matched = none ∧
      (match_single_material s ml).candidates = [] ∧
      (match_single_material s ml).ambiguity_detected = false) ∧
    ((names = [] ∨ ml = []) → match_material_data names ml = []) := by
  refine ⟨?_, ?_, ?_, ?_⟩
  · intro h
    have hc : s = "" ∨ fl.isEmpty = true := h.imp id (fun h2 => by simp [h2])
    unfold match_field_data
    rw [if_pos hc]
    exact ⟨rfl, rfl, rfl⟩
  · intro h
    have hc : s = "" ∨ cl.isEmpty = true := h.imp id (fun h2 => by simp [h2])
    unfold match_crop_data
    rw [if_pos hc]
    exact ⟨rfl, rfl, rfl⟩
  · intro h
    rcases h with h | h
    · unfold match_single_material
      rw [if_pos h]
      exact ⟨rfl, rfl, rfl⟩
    · subst h
      unfold match_single_material
      split
      · exact ⟨rfl, rfl, rfl⟩
      · exact ⟨rfl, rfl, rfl⟩
  · intro h
    have hc : names.isEmpty = true ∨ ml.isEmpty = true := by
      rcases h with h | h <;> simp [h]
    unfold match_material_data
    rw [if_pos hc]

/-- C9 witness: the no-match laws at concrete empty inputs. -/
theorem matcher_empty_inputs_no_match_witness :
    (match_field_data "" ([] : List FieldRec)).matched = none ∧
    match_material_data [] ([] : List MaterialRec) = [] :=
  ⟨((matcher_empty_inputs_no_match "" [] [] [] []).1 (Or.inl rfl)).1,
   (matcher_empty_inputs_no_match "" [] [] [] []).2.2.2 (Or.inl rfl)⟩

/-! ### Claim C7: confidence score bounds and the catch-all error path -/

/-- helper: every successful result of the scoring body is the clamped
weighted sum, hence within [0,1]. -/
theorem score_body_ok_bounds (d : ScorerInput) (q : ℚ)
    (h : score_body d = .ok q) : 0 ≤ q ∧ q ≤ 1 := by
  unfold score_body at h
  simp only [bind, Except.bind, pure, Except.pure] at h
  cases h1 : evaluate_work_date d.work_date with
  | error e => rw [h1] at h; cases h
  | ok s1 =>
  rw [h1] at h
  cases h2 : evaluate_field_name d.field_name with
  | error e => rw [h2] at h; cases h
  | ok s2 =>
  rw [h2] at h
  cases h3 : evaluate_crop_name d.crop_name with
  | error e => rw [h3] at h; cases h
  | ok s3 =>
  rw [h3] at h
  cases h4 : evaluate_work_category d.work_category with
  | error e => rw [h4] at h; cases h
  | ok s4 =>
  rw [h4] at h
  cases h5 : evaluate_materials d.materials with
  | error e => rw [h5] at h; cases h
  | ok s5 =>
  rw [h5] at h
  cases h6 : evaluate_quantity d.quantity d.unit with
  | error e => rw [h6] at h; cases h
  | ok s6 =>
  rw [h6] at h
  injection h with h
  subst h
  exact ⟨le_max_left _ _, max_le (by norm_num) (min_le_left _ _)⟩

/-- C7: the confidence score is always within [0,1]; the scorer is total
(never raises); and whenever the `try` body raises (any per-field evaluator
error), the caught error makes the overall score 0.0. -/
theorem scorer_bounds_and_error_zero (d : ScorerInput) :
    (0 ≤ calculate_confidence_score d ∧ calculate_confidence_score d ≤ 1) ∧
    (∀ e, score_body d = .error e → calculate_confidence_score d = 0) := by
  constructor
  · unfold calculate_confidence_score
    cases h : score_body d with
    | ok q => exact score_body_ok_bounds d q h
    | error e => norm_num
  · intro e he
    unfold calculate_confidence_score
    rw [he]

/-- C7 witness: a quantity of the wrong dynamic type (the string "500")
makes `_evaluate_quantity` raise `TypeError`; the scorer returns 0.0. -/
theorem scorer_bounds_and_error_zero_witness :
    score_body ⟨.vnone, .vnone, .vnone, .vnone, .vnone, .vstr "500", .vnone, .vnone, .vnone⟩
      = .error "TypeError" ∧
    calculate_confidence_score
      ⟨.vnone, .vnone, .vnone, .vnone, .vnone, .vstr "500", .vnone, .vnone, .vnone⟩ = 0 := by
  have h : score_body
      ⟨.vnone, .vnone, .vnone, .vnone, .vnone, .vstr "500", .vnone, .vnone, .vnone⟩
      = .error "TypeError" := by rfl
  exact ⟨h, (scorer_bounds_and_error_zero _).2 "TypeError" h⟩

/-! ### Claim C10: unrecognized work-date strings parse to today -/

/-- helper: a string outside the recognized relative forms parses to today. -/
theorem parse_work_date_default (today : ℤ) (s : String)
    (h : ¬ recognized_relative s) : parse_work_date today (some s) = today := by
  have h1 : s ≠ "今日" := fun hc => h (Or.inl hc)
  have h2 : s ≠ "昨日" := fun hc => h (Or.inr (Or.inl hc))
  have h3 : s ≠ "一昨日" := fun hc => h (Or.inr (Or.inr (Or.inl hc)))
  by_cases h0 : s = ""
  · simp [parse_work_date, h0]
  · by_cases h4 : subInside "日前".toList s.toList = true
    · have h5 : findDaysAgo s.toList = none := by
        cases hf : findDaysAgo s.toList with
        | none => rfl
        | some n =>
          exact absurd (Or.inr (Or.inr (Or.inr ⟨h4, by rw [hf]; rfl⟩))) h
      have h5' : findDaysAgo s.data = none := h5
      simp [parse_work_date, h0, h1, h2, h3, h5']
    · have h4' : subInside ['日', '前'] s.data = false := by
        cases hx : subInside "日前".toList s.toList with
        | false => exact hx
        | true => exact absurd hx h4
      simp [parse_work_date, h0, h1, h2, h3, h4']

/-- C10: a work-date string that is none of the recognized relative forms
(today, yesterday, day-before-yesterday, N-days-ago) parses to the current
date; an absent work date also yields the current date; and the record
built by `_save_work_log` is therefore stamped with today's date, not the
stated date.  The N-days-ago form follows Python's `\d`, which matches
full-width digits too: `５日前` IS recognized and parses to `today - 5`. -/
theorem parse_work_date_defaults_to_today (today : ℤ) (s : String)
    (eff : EngineEffects) (info : ExtractedWorkInfo)
    (vr : WorkLogValidationResult) (m u : String) (rec : LogRecord) :
    (¬ recognized_relative s → parse_work_date today (some s) = today) ∧
    parse_work_date today none = today ∧
    parse_work_date today (some "５日前") = today - 5 ∧
    (eff.today = today → info.work_date = some s → ¬ recognized_relative s →
      save_work_log eff info vr m u = .ok rec → rec.work_date = today) := by
  refine ⟨parse_work_date_default today s, rfl, ?_, ?_⟩
  · have h1 : findDaysAgo "５日前".toList = some 5 := by decide
    have h2 : findDaysAgo ("５日前" : String).data = some 5 := h1
    have h3 : subInside "日前".toList ("５日前" : String).toList = true := by decide
    have h4 : subInside ['日', '前'] ['５', '日', '前'] = true := h3
    simp [parse_work_date, h2, h3, h4]
  intro he hw h hsave
  unfold save_work_log at hsave
  cases hins : eff.insert_work_log with
  | error e => rw [hins] at hsave; cases hsave
  | ok x =>
    rw [hins] at hsave
    injection hsave with hrec
    rw [← hrec]
    show parse_work_date eff.today info.work_date = today
    rw [he, hw]
    exact parse_work_date_default today s h

/-- C10 witness: the concrete calendar string "2024-05-01" is not parsed
and the saved record carries today's date (day number 20000 here), while
the full-width "５日前" is recognized and parses to five days earlier. -/
theorem parse_work_date_defaults_witness :
    parse_work_date 20000 (some "2024-05-01") = 20000 ∧
    parse_work_date 20000 (some "５日前") = 20000 - 5 ∧
    (⟨"LOG-1", "u", 20000, "m", "その他", ["その他"], "confirmed"⟩ :
      LogRecord).work_date = 20000 := by
  have h := parse_work_date_defaults_to_today 20000 "2024-05-01"
    ⟨20000, "LOG-1", .ok (), .ok [], .error "x", .ok ⟨"m", []⟩⟩
    ⟨some "2024-05-01", none, none, none, [], none, none, none, none, none⟩
    (create_error_result "") "m" "u"
    ⟨"LOG-1", "u", 20000, "m", "その他", ["その他"], "confirmed"⟩
  exact ⟨h.1 (by decide), h.2.2.1, h.2.2.2 rfl rfl (by decide) (by rfl)⟩

/-! ### Claim C1: the Automatic strategy's can_handle condition -/

/-- C1 counterexample: with a valid verdict, confidence 0.9 and an empty
missing-info list — but no work category — `can_handle` returns false,
although the claim requires it to return true there. -/
theorem auto_can_handle_claim_false :
    auto_can_handle
      ⟨none, none, none, none, [], none, none, none, none, some (9/10)⟩
      ⟨true, create_no_match_result, create_no_match_result, [], [], [], 0, "v"⟩ = false ∧
    (⟨true, create_no_match_result, create_no_match_result, [], [], [], 0, "v"⟩ :
      WorkLogValidationResult).is_valid = true ∧
    (8/10 : ℚ) ≤ confidence_or_zero
      ⟨none, none, none, none, [], none, none, none, none, some (9/10)⟩ ∧
    (⟨true, create_no_match_result, create_no_match_result, [], [], [], 0, "v"⟩ :
      WorkLogValidationResult).missing_info.length ≤ 1 := by
  refine ⟨?_, rfl, by norm_num [confidence_or_zero], by norm_num⟩
  norm_num [auto_can_handle, confidence_or_zero]

/-- C1 (amended): `can_handle` is true iff the verdict is valid, the
confidence is at least 0.8, at most one item is missing, AND the essential
information is present: a work category together with a truthy field name
or a matched field in the verdict. -/
theorem auto_can_handle_iff (info : ExtractedWorkInfo)
    (vr : WorkLogValidationResult) :
    auto_can_handle info vr = true ↔
      (vr.is_valid = true ∧ 8/10 ≤ confidence_or_zero info ∧
       vr.missing_info.length ≤ 1 ∧ info.work_category.isSome = true ∧
       (pyStrTruthy info.field_name = true ∨
        vr.field_validation.matched.isSome = true)) := by
  unfold auto_can_handle
  by_cases hv : vr.is_valid = true
  · by_cases hc : confidence_or_zero info < 8/10
    · rw [if_pos (by simp [hv, hc])]
      constructor
      · intro h; cases h
      · rintro ⟨-, h2, -, -, -⟩
        exact absurd h2 (not_le.mpr hc)
    · rw [if_neg (by simp [hv, hc])]
      have hc' := not_lt.mp hc
      simp only [Bool.and_eq_true, Bool.or_eq_true, decide_eq_true_eq, hv, true_and]
      tauto
  · have hv' : vr.is_valid = false := by
      revert hv; cases vr.is_valid <;> simp
    rw [if_pos (by simp [hv'])]
    constructor
    · intro h; cases h
    · rintro ⟨h1, -⟩
      rw [hv'] at h1
      cases h1

/-! ### Claim C4: strategy selection totality, fallback, non-exclusivity -/

/-- C4 counterexample: at confidence 0.9 with a valid verdict, nothing
missing, a work category and a field name, BOTH the Automatic strategy's
and the Confirmation strategy's `can_handle` are true (the Confirmation
predicate is a catch-all that returns true in every branch), so it is not
the case that exactly one of the predicates is true. -/
theorem strategy_predicates_not_exclusive :
    auto_can_handle
      ⟨none, some "A", none, some .bojo, [], none, none, none, none, some (9/10)⟩
      ⟨true, create_no_match_result, create_no_match_result, [], [], [], 0, "v"⟩ = true ∧
    confirmation_can_handle
      ⟨none, some "A", none, some .bojo, [], none, none, none, none, some (9/10)⟩
      ⟨true, create_no_match_result, create_no_match_result, [], [], [], 0, "v"⟩ = true := by
  constructor
  · norm_num [auto_can_handle, confidence_or_zero, pyStrTruthy]
    left
    decide
  · norm_num [confirmation_can_handle, confidence_or_zero]

/-- C4 (amended): the Confirmation strategy's `can_handle` is identically
true, so on the default priority list the engine always finds a first
matching strategy and executes exactly that one (the explicit no-match
fallback is unreachable); on any list whose `can_handle` checks all fail
and whose last entry is the Confirmation strategy, the engine executes the
Confirmation strategy.  The raw predicates themselves are NOT mutually
exclusive. -/
theorem strategy_selection_total (info : ExtractedWorkInfo)
    (vr : WorkLogValidationResult) (eff : EngineEffects) (m u : String)
    (ss : List StrategyName) :
    confirmation_can_handle info vr = true ∧
    default_strategies.getLast? = some .confirmationFlow ∧
    (∃ s, default_strategies.find? (fun t => strategy_can_handle t info vr) = some s ∧
      execute_best_strategy eff default_strategies info vr m u =
        strategy_execute eff s info vr m u) ∧
    ((∀ s ∈ ss, strategy_can_handle s info vr = false) →
      ∀ slast, ss.getLast? = some slast →
      execute_best_strategy eff ss info vr m u =
        strategy_execute eff slast info vr m u) := by
  have hconf : confirmation_can_handle info vr = true := by
    unfold confirmation_can_handle
    split
    · rfl
    · split <;> rfl
  refine ⟨hconf, rfl, ?_, ?_⟩
  · by_cases h1 : strategy_can_handle .auto info vr
    · exact ⟨.auto, by simp [default_strategies, List.find?, h1],
        by simp [execute_best_strategy, default_strategies, List.find?, h1]⟩
    · by_cases h2 : strategy_can_handle .intelligent info vr
      · exact ⟨.intelligent, by simp [default_strategies, List.find?, h1, h2],
          by simp [execute_best_strategy, default_strategies, List.find?, h1, h2]⟩
      · by_cases h3 : strategy_can_handle .enhancedConfirmation info vr
        · exact ⟨.enhancedConfirmation,
            by simp [default_strategies, List.find?, h1, h2, h3],
            by simp [execute_best_strategy, default_strategies, List.find?, h1, h2, h3]⟩
        · have h4 : strategy_can_handle .confirmationFlow info vr = true := hconf
          exact ⟨.confirmationFlow,
            by simp [default_strategies, List.find?, h1, h2, h3, h4],
            by simp [execute_best_strategy, default_strategies, List.find?, h1, h2, h3, h4]⟩
  · intro hall slast hlast
    have hfind : ss.find? (fun s => strategy_can_handle s info vr) = none := by
      rw [List.find?_eq_none]
      intro x hx
      simp [hall x hx]
    unfold execute_best_strategy
    rw [hfind, hlast]

/-- C4 witness: selection succeeds on the default list, and on a custom
list whose only strategy cannot handle the submission the fallback
executes that last strategy, at concrete inputs. -/
theorem strategy_selection_total_witness :
    (∃ s, default_strategies.find? (fun t => strategy_can_handle t
        ⟨none, none, none, none, [], none, none, none, none, none⟩
        (create_error_result "e")) = some s ∧
      execute_best_strategy ⟨0, "L", .ok (), .ok [], .error "x", .ok ⟨"m", []⟩⟩
        default_strategies
        ⟨none, none, none, none, [], none, none, none, none, none⟩
        (create_error_result "e") "m" "u" =
        strategy_execute ⟨0, "L", .ok (), .ok [], .error "x", .ok ⟨"m", []⟩⟩ s
          ⟨none, none, none, none, [], none, none, none, none, none⟩
          (create_error_result "e") "m" "u") ∧
    execute_best_strategy ⟨0, "L", .ok (), .ok [], .error "x", .ok ⟨"m", []⟩⟩
      [.auto] ⟨none, none, none, none, [], none, none, none, none, none⟩
      (create_error_result "e") "m" "u" =
      strategy_execute ⟨0, "L", .ok (), .ok [], .error "x", .ok ⟨"m", []⟩⟩ .auto
        ⟨none, none, none, none, [], none, none, none, none, none⟩
        (create_error_result "e") "m" "u" := by
  have h := strategy_selection_total
    ⟨none, none, none, none, [], none, none, none, none, none⟩
    (create_error_result "e") ⟨0, "L", .ok (), .ok [], .error "x", .ok ⟨"m", []⟩⟩
    "m" "u" [.auto]
  refine ⟨h.2.2.1, h.2.2.2 ?_ .auto rfl⟩
  intro s hs
  rw [List.mem_singleton] at hs
  subst hs
  norm_num [strategy_can_handle, auto_can_handle, confidence_or_zero, create_error_result]

/-! ### Claim C3: persistence failure in the Automatic strategy -/

/-- helper: a successful automatic execution implies the storage write
succeeded. -/
theorem auto_execute_ok_insert (eff : EngineEffects) (info : ExtractedWorkInfo)
    (vr : WorkLogValidationResult) (m u : String) (r : RegResult)
    (h : auto_execute eff info vr m u = .ok r) : eff.insert_work_log = .ok () := by
  unfold auto_execute save_work_log at h
  cases hins : eff.insert_work_log with
  | ok x => cases x; rfl
  | error e => rw [hins] at h; simp at h

/-- helper: the confirmation flow never produces registration type "auto". -/
theorem confirmation_type_ne_auto (eff : EngineEffects) (info : ExtractedWorkInfo)
    (vr : WorkLogValidationResult) (m u : String) :
    (confirmation_execute eff info vr m u).registration_type ≠ some "auto" := by
  unfold confirmation_execute
  cases hcf : eff.confirmation with
  | ok cd =>
    intro hcon
    exact absurd (Option.some.inj hcon) (by decide)
  | error e =>
    intro hcon
    cases hcon

/-- helper: the enhanced confirmation flow never produces registration type
"auto". -/
theorem enhanced_type_ne_auto (eff : EngineEffects) (info : ExtractedWorkInfo)
    (vr : WorkLogValidationResult) (m u : String) :
    (enhanced_confirmation_execute eff info vr m u).registration_type ≠ some "auto" := by
  unfold enhanced_confirmation_execute
  cases hh : eff.user_history with
  | error e => exact confirmation_type_ne_auto eff info vr m u
  | ok hist =>
    cases hc : eff.context with
    | error e => exact confirmation_type_ne_auto eff info vr m u
    | ok ca =>
      cases hcf : eff.confirmation with
      | error e => exact confirmation_type_ne_auto eff info vr m u
      | ok cd =>
        intro hcon
        exact absurd (Option.some.inj hcon) (by decide)

/-- helper: an intelligent-strategy result carrying registration type
"auto" can only come from the nested automatic execution, so the storage
write succeeded. -/
theorem intelligent_auto_type_insert (eff : EngineEffects) (info : ExtractedWorkInfo)
    (vr : WorkLogValidationResult) (m u : String)
    (h : (intelligent_execute eff info vr m u).registration_type = some "auto") :
    eff.insert_work_log = .ok () := by
  unfold intelligent_execute at h
  cases hh : eff.user_history with
  | error e => rw [hh] at h; exact absurd h (confirmation_type_ne_auto eff info vr m u)
  | ok hist =>
  rw [hh] at h
  cases hc : eff.context with
  | error e => rw [hc] at h; exact absurd h (confirmation_type_ne_auto eff info vr m u)
  | ok ca =>
  rw [hc] at h
  simp only [] at h
  by_cases ha1 : ca.recommended_action = "auto_register_urgent"
  · rw [if_pos ha1] at h
    cases hae : auto_execute eff info vr m u with
    | ok r0 => exact auto_execute_ok_insert eff info vr m u r0 hae
    | error e =>
      rw [hae] at h
      exact absurd h (confirmation_type_ne_auto eff info vr m u)
  · rw [if_neg ha1] at h
    by_cases ha2 : ca.recommended_action = "auto_register_inferred"
    · rw [if_pos ha2] at h
      cases hae : auto_execute eff
          (if ca.missing_info_inference.isEmpty then info
           else apply_llm_inferences info ca.missing_info_inference) vr m u with
      | ok r0 => exact auto_execute_ok_insert eff _ vr m u r0 hae
      | error e =>
        rw [hae] at h
        exact absurd h (confirmation_type_ne_auto eff info vr m u)
    · rw [if_neg ha2] at h
      by_cases ha3 : ca.recommended_action = "confirm_with_suggestions"
      · rw [if_pos ha3] at h
        exact absurd h (enhanced_type_ne_auto eff info vr m u)
      · rw [if_neg ha3] at h
        exact absurd h (confirmation_type_ne_auto eff info vr m u)

/-- C3 counterexample: when the Automatic strategy is selected and the
storage write fails, the engine does NOT execute the Confirmation strategy:
the error propagates out of `execute_best_strategy` (the Confirmation
strategy, had it run, would have returned an ok result). -/
theorem engine_no_confirmation_fallback_on_write_failure :
    execute_best_strategy
      ⟨0, "L", .error "DB write failed", .ok [], .error "x", .ok ⟨"m", []⟩⟩
      default_strategies
      ⟨none, some "A", none, some .bojo, [], none, none, none, none, some (9/10)⟩
      ⟨true, create_no_match_result, create_no_match_result, [], [], [], 0, "v"⟩
      "m" "u" = .error "DB write failed" ∧
    (∃ rc, strategy_execute
      ⟨0, "L", .error "DB write failed", .ok [], .error "x", .ok ⟨"m", []⟩⟩
      .confirmationFlow
      ⟨none, some "A", none, some .bojo, [], none, none, none, none, some (9/10)⟩
      ⟨true, create_no_match_result, create_no_match_result, [], [], [], 0, "v"⟩
      "m" "u" = .ok rc) := by
  have h1 : auto_can_handle
      ⟨none, some "A", none, some .bojo, [], none, none, none, none, some (9/10)⟩
      ⟨true, create_no_match_result, create_no_match_result, [], [], [], 0, "v"⟩ = true := by
    norm_num [auto_can_handle, confidence_or_zero, pyStrTruthy]
    left
    decide
  constructor
  · simp [execute_best_strategy, default_strategies, List.find?, strategy_can_handle, h1,
      strategy_execute, auto_execute, save_work_log]
  · exact ⟨_, rfl⟩

/-- C3 (amended): `execute_best_strategy` has no error handling: when the
Automatic strategy is selected and the storage write fails, the raised
error propagates to the caller (no Confirmation fallback happens at the
engine level); nevertheless the engine never returns a successful
"auto"-type registration unless the storage write succeeded. -/
theorem engine_persistence_failure_propagates (eff : EngineEffects)
    (info : ExtractedWorkInfo) (vr : WorkLogValidationResult) (m u : String)
    (e : String) (r : RegResult) :
    (auto_can_handle info vr = true → eff.insert_work_log = .error e →
      execute_best_strategy eff default_strategies info vr m u = .error e) ∧
    (execute_best_strategy eff default_strategies info vr m u = .ok r →
      r.registration_type = some "auto" →
      eff.insert_work_log = .ok ()) := by
  constructor
  · intro h1 h2
    have hfind : default_strategies.find? (fun t => strategy_can_handle t info vr)
        = some .auto := by
      simp [default_strategies, List.find?, strategy_can_handle, h1]
    unfold execute_best_strategy
    rw [hfind]
    simp [strategy_execute, auto_execute, save_work_log, h2]
  · intro hok htype
    unfold execute_best_strategy at hok
    cases hfind : default_strategies.find? (fun t => strategy_can_handle t info vr) with
    | some s =>
      rw [hfind] at hok
      cases s with
      | auto =>
        exact auto_execute_ok_insert eff info vr m u r
          (by simpa [strategy_execute] using hok)
      | intelligent =>
        have heq : intelligent_execute eff info vr m u = r := by
          simpa [strategy_execute] using hok
        rw [← heq] at htype
        exact intelligent_auto_type_insert eff info vr m u htype
      | enhancedConfirmation =>
        have heq : enhanced_confirmation_execute eff info vr m u = r := by
          simpa [strategy_execute] using hok
        rw [← heq] at htype
        exact absurd htype (enhanced_type_ne_auto eff info vr m u)
      | confirmationFlow =>
        have heq : confirmation_execute eff info vr m u = r := by
          simpa [strategy_execute] using hok
        rw [← heq] at htype
        exact absurd htype (confirmation_type_ne_auto eff info vr m u)
    | none =>
      rw [hfind] at hok
      have heq : confirmation_execute eff info vr m u = r := by
        simpa [default_strategies, strategy_execute] using hok
      rw [← heq] at htype
      exact absurd htype (confirmation_type_ne_auto eff info vr m u)

/-- C3 witness: with the automatic strategy selected and a failing storage
write, the engine returns the propagated error at a concrete input. -/
theorem engine_persistence_failure_propagates_witness :
    execute_best_strategy ⟨0, "L", .error "boom", .ok [], .error "x", .ok ⟨"m", []⟩⟩
      default_strategies
      ⟨none, some "A", none, some .bojo, [], none, none, none, none, some (9/10)⟩
      ⟨true, create_no_match_result, create_no_match_result, [], [], [], 0, "v"⟩
      "m" "u" = .error "boom" := by
  have h := (engine_persistence_failure_propagates
    ⟨0, "L", .error "boom", .ok [], .error "x", .ok ⟨"m", []⟩⟩
    ⟨none, some "A", none, some .bojo, [], none, none, none, none, some (9/10)⟩
    ⟨true, create_no_match_result, create_no_match_result, [], [], [], 0, "v"⟩
    "m" "u" "boom" ⟨false, false, none, "", none, "", none, none⟩).1
  apply h
  · norm_num [auto_can_handle, confidence_or_zero, pyStrTruthy]
    left
    decide
  · rfl

/-! ### Claim C2: materials-lookup failure aborts the whole verdict -/

/-- C2 (amended): a storage failure while fetching the materials dataset
(with the field and crop reads succeeding) is caught — `validate_work_log`
never raises — but the WHOLE verdict becomes the error verdict: validity
false, empty field/crop sub-results (the field match is NOT reported), and
`missing_info = ["validation_error"]`. -/
theorem validator_materials_failure_error_verdict (gw : GatewayOutcome)
    (info : ExtractedWorkInfo) (fs : List FieldRec) (cs : List CropRec)
    (e : String) (hf : gw.fields = .ok fs) (hc : gw.crops = .ok cs)
    (hm : gw.materials = .error e) :
    validate_work_log gw info = create_error_result e := by
  unfold validate_work_log
  have hfetch : fetch_master_data_parallel gw = .error e := by
    unfold fetch_master_data_parallel
    rw [hf, hc, hm]
    rfl
  rw [hfetch]

/-- C2 counterexample: with one master field named "A" and an extracted
field name "A", the matcher finds the field; yet when the materials read
fails, the verdict reports no field match at all (empty sub-result) and is
invalid — the claim's "still reports the field match" is false. -/
theorem validator_field_match_lost_on_materials_failure :
    (validate_work_log
        ⟨.ok [⟨some "F1", "A", ""⟩], .ok [], .error "storage error"⟩
        ⟨none, some "A", none, none, [], none, none, none, none, none⟩).field_validation.matched
      = none ∧
    (validate_work_log
        ⟨.ok [⟨some "F1", "A", ""⟩], .ok [], .error "storage error"⟩
        ⟨none, some "A", none, none, [], none, none, none, none, none⟩).is_valid = false ∧
    (validate_work_log
        ⟨.ok [⟨some "F1", "A", ""⟩], .ok [], .ok []⟩
        ⟨none, some "A", none, none, [], none, none, none, none, none⟩).field_validation.matched.isSome
      = true := by
  refine ⟨?_, ?_, ?_⟩
  · rw [validator_materials_failure_error_verdict _ _ [⟨some "F1", "A", ""⟩] [] "storage error"
      rfl rfl rfl]
    rfl
  · rw [validator_materials_failure_error_verdict _ _ [⟨some "F1", "A", ""⟩] [] "storage error"
      rfl rfl rfl]
    rfl
  · have hfetch : fetch_master_data_parallel
        ⟨.ok [⟨some "F1", "A", ""⟩], .ok [], .ok []⟩ =
        .ok ⟨[⟨some "F1", "A", ""⟩], [], []⟩ := rfl
    unfold validate_work_log
    rw [hfetch]
    have hmatch : (match_field_data "A" [⟨some "F1", "A", ""⟩]).matched.isSome = true := by
      have h1 : normalize_text "A" = "a" := rfl
      have h2 : calculate_similarity "a" "a" = 1 := rfl
      have h4 : max (1 : ℚ) 0 = 1 := max_eq_left (by norm_num)
      have h5 : (4/10 : ℚ) ≤ 1 := by norm_num
      simp [match_field_data, h1, h2, h4, h5, select_best_match, sortByConfDesc,
        insertByConf]
    simpa [build_validation_result, execute_matching_logic, pyStrTruthy] using hmatch

/-- C2 witness: the error verdict at a concrete failing gateway. -/
theorem validator_materials_failure_error_verdict_witness :
    validate_work_log ⟨.ok [], .ok [], .error "err"⟩
      ⟨none, none, none, none, [], none, none, none, none, none⟩ =
      create_error_result "err" :=
  validator_materials_failure_error_verdict _ _ [] [] "err" rfl rfl rfl

/-! ### Claim C5: the overall-validity invariant -/

/-- helper: every entry of `match_material_data` carries a found match (the
results without a match are filtered out). -/
theorem match_material_data_all_matched (names : List String)
    (ml : List MaterialRec) :
    ∀ mv ∈ match_material_data names ml, mv.matched.isSome = true := by
  intro mv hmv
  unfold match_material_data at hmv
  split at hmv
  · cases hmv
  · exact (List.mem_filter.mp hmv).2

/-- helper: every material sub-result assembled by the matching logic
carries a found match. -/
theorem matching_materials_all_matched (info : ExtractedWorkInfo) (md : MasterData) :
    ∀ mv ∈ (execute_matching_logic info md).material_validation,
      mv.matched.isSome = true := by
  intro mv hmv
  unfold execute_matching_logic at hmv
  simp only [] at hmv
  split at hmv
  · cases hmv
  · exact match_material_data_all_matched info.materials md.materials mv hmv

/-- C5: the verdict's validity flag is true iff a field was resolved, or a
crop was resolved and at least one material was resolved (on the error
path nothing is resolved and validity is false, so the equivalence holds
for every verdict the validator builds). -/
theorem overall_validity_iff_resolved (gw : GatewayOutcome)
    (info : ExtractedWorkInfo) :
    (validate_work_log gw info).is_valid = true ↔
      ((validate_work_log gw info).field_validation.matched.isSome = true ∨
       ((validate_work_log gw info).crop_validation.matched.isSome = true ∧
        ∃ mv ∈ (validate_work_log gw info).material_validation,
          mv.matched.isSome = true)) := by
  unfold validate_work_log
  cases hfetch : fetch_master_data_parallel gw with
  | error e => simp [create_error_result, emptySelection]
  | ok md =>
    have hall := matching_materials_all_matched info md
    simp only [build_validation_result, assess_overall_validity, Bool.or_eq_true,
      Bool.and_eq_true, Bool.not_eq_true']
    constructor
    · rintro (hf | ⟨hc2, hne⟩)
      · exact Or.inl hf
      · refine Or.inr ⟨hc2, ?_⟩
        cases hmat : (execute_matching_logic info md).material_validation with
        | nil => rw [hmat] at hne; simp at hne
        | cons x xs =>
          exact ⟨x, List.mem_cons_self x xs,
            hall x (by rw [hmat]; exact List.mem_cons_self x xs)⟩
    · rintro (hf | ⟨hc2, mv, hmv, -⟩)
      · exact Or.inl hf
      · refine Or.inr ⟨hc2, ?_⟩
        cases hmat : (execute_matching_logic info md).material_validation with
        | nil => rw [hmat] at hmv; cases hmv
        | cons x xs => rfl

/-! ### Claim C6: the exact content of the missing-information list -/

/-- helper: membership in a conditional singleton list. -/
theorem mem_ite_singleton {c : Prop} [Decidable c] (x y : String) :
    (y ∈ if c then [x] else []) ↔ (c ∧ y = x) := by
  split
  · next h => simp [h]
  · next h => simp [h]

/-- helper: Python falsiness of the quantity in terms of its value. -/
theorem pyQuantityFalsy_iff (q : Option ℚ) :
    pyQuantityFalsy q = true ↔ (q = none ∨ q = some 0) := by
  cases q <;> simp [pyQuantityFalsy]

/-- helper: the material sub-result list of the matching logic is empty iff
no material was resolved (every kept entry carries a match). -/
theorem matching_materials_empty_iff (info : ExtractedWorkInfo) (md : MasterData) :
    (execute_matching_logic info md).material_validation.isEmpty = true ↔
      ¬ ∃ mv ∈ (execute_matching_logic info md).material_validation,
          mv.matched.isSome = true := by
  rw [List.isEmpty_iff]
  constructor
  · rintro h ⟨mv, hmv, -⟩
    rw [h] at hmv
    cases hmv
  · intro h
    cases hmat : (execute_matching_logic info md).material_validation with
    | nil => rfl
    | cons x xs =>
      exact absurd ⟨x, by rw [hmat]; exact List.mem_cons_self x xs,
        matching_materials_all_matched info md x
          (by rw [hmat]; exact List.mem_cons_self x xs)⟩ h

/-- C6 counterexample: a harvest record with `quantity = 0.0` (present, not
absent) still gets `"quantity"` in the missing-information list, because
the code tests Python falsiness (`not extracted_info.quantity`), not
absence. -/
theorem missing_info_quantity_zero_counterexample :
    "quantity" ∈ (validate_work_log ⟨.ok [], .ok [], .ok []⟩
      ⟨some "昨日", none, none, some .shukaku, [], some 0, none, none, none,
        none⟩).missing_info ∧
    (⟨some "昨日", none, none, some .shukaku, [], some 0, none, none, none, none⟩ :
      ExtractedWorkInfo).quantity = some 0 := by
  constructor
  · have hfetch : fetch_master_data_parallel ⟨.ok [], .ok [], .ok []⟩ =
        .ok ⟨[], [], []⟩ := rfl
    unfold validate_work_log
    rw [hfetch]
    simp only [build_validation_result]
    simp [identify_missing_information, execute_matching_logic, pyStrTruthy,
      pyQuantityFalsy, create_no_match_result]
  · rfl

/-- C6 (amended): the missing-information list contains exactly:
`work_date` when the work date is absent or empty; `field_name` when no
field was resolved; `work_category` when the category is absent;
`materials` when the category is prevention or fertilization and no
material was resolved; and `quantity` when the category is harvest and the
quantity is absent or zero (Python falsiness, not absence). -/
theorem missing_info_exact (gw : GatewayOutcome) (info : ExtractedWorkInfo)
    (fs : List FieldRec) (cs : List CropRec) (ms : List MaterialRec)
    (hf : gw.fields = .ok fs) (hc : gw.crops = .ok cs)
    (hm : gw.materials = .ok ms) :
    ("work_date" ∈ (validate_work_log gw info).missing_info ↔
      pyStrTruthy info.work_date = false) ∧
    ("field_name" ∈ (validate_work_log gw info).missing_info ↔
      (validate_work_log gw info).field_validation.matched = none) ∧
    ("work_category" ∈ (validate_work_log gw info).missing_info ↔
      info.work_category = none) ∧
    ("materials" ∈ (validate_work_log gw info).missing_info ↔
      ((info.work_category = some .bojo ∨ info.work_category = some .sehi) ∧
        ¬ ∃ mv ∈ (validate_work_log gw info).material_validation,
            mv.matched.isSome = true)) ∧
    ("quantity" ∈ (validate_work_log gw info).missing_info ↔
      (info.work_category = some .shukaku ∧
        (info.quantity = none ∨ info.quantity = some 0))) ∧
    (∀ x ∈ (validate_work_log gw info).missing_info,
      x = "work_date" ∨ x = "field_name" ∨ x = "work_category" ∨
      x = "materials" ∨ x = "quantity") := by
  have hfetch : fetch_master_data_parallel gw = .ok ⟨fs, cs, ms⟩ := by
    unfold fetch_master_data_parallel
    rw [hf, hc, hm]
    rfl
  unfold validate_work_log
  rw [hfetch]
  simp only [build_validation_result]
  have hempty := matching_materials_empty_iff info ⟨fs, cs, ms⟩
  refine ⟨?_, ?_, ?_, ?_, ?_, ?_⟩
  · simp [identify_missing_information, mem_ite_singleton, List.mem_append]
  · simp [identify_missing_information, mem_ite_singleton, List.mem_append,
      Option.isNone_iff_eq_none]
  · simp [identify_missing_information, mem_ite_singleton, List.mem_append,
      Option.isNone_iff_eq_none]
  · simp only [identify_missing_information, List.mem_append, mem_ite_singleton]
    rw [← hempty]
    simp
  · simp [identify_missing_information, mem_ite_singleton, List.mem_append,
      pyQuantityFalsy_iff]
  · intro x hx
    simp only [identify_missing_information, List.mem_append, mem_ite_singleton] at hx
    tauto

/-- C6 witness: the characterization at a concrete record (harvest
category, all lookups succeeding on empty datasets). -/
theorem missing_info_exact_witness :
    ("quantity" ∈ (validate_work_log ⟨.ok [], .ok [], .ok []⟩
      ⟨none, none, none, none, [], none, none, none, none, none⟩).missing_info ↔
      ((⟨none, none, none, none, [], none, none, none, none, none⟩ :
        ExtractedWorkInfo).work_category = some .shukaku ∧
       ((⟨none, none, none, none, [], none, none, none, none, none⟩ :
        ExtractedWorkInfo).quantity = none ∨
        (⟨none, none, none, none, [], none, none, none, none, none⟩ :
        ExtractedWorkInfo).quantity = some 0))) :=
  (missing_info_exact ⟨.ok [], .ok [], .ok []⟩
    ⟨none, none, none, none, [], none, none, none, none, none⟩
    [] [] [] rfl rfl rfl).2.2.2.2.1

end AgriAI
